import Mathlib

/-!
Shallow embedding of the SMS provider routing and failover subsystem of the
Cendika repository, covering:

* `src/src/core/providers/sms/base-sms.provider.ts`
  (`BaseSMSProvider`: `supportsCountry`, `supportsNetwork`, `updateStats`,
  `healthCheck`, the `ProviderResponse` / `ProviderStats` / `DeliveryStatus` /
  `ProviderBalance` shapes),
* `src/src/core/providers/sms/provider.factory.ts`
  (`SMSProviderFactory`: `getProvider`, `getAllProviders`,
  `getProvidersForCountry`, `getProvidersForNetwork`, `healthCheckAll`),
* `src/src/core/providers/sms/provider.router.ts`
  (`SMSProviderRouter`: `sendSMS`, `getBestProvider`, `checkDeliveryStatus`).

Modelling conventions:

* JavaScript numbers are modelled by `ℚ` (the code performs only exact
  divisions on small counters and latencies), counters by `Nat`.
* A JavaScript value that may be `undefined` is an `Option`; the JS
  truthiness test `x || d` on optional strings is `jsOr` below (both
  `undefined` and the empty string are falsy).
* A TypeScript `async` method that may `throw` is modelled by a sum of a
  normal result and a thrown value (`AttemptResult`, `DeliveryResult`,
  `BalanceResult`, `RegistryLookup`); a thrown value is modelled as a JS
  object with optional `message` and `errorCode` properties (`JsError`),
  matching the property accesses the catching code performs.
* An adapter (a concrete subclass of `BaseSMSProvider`) is modelled by the
  data the router and factory observe about it for one fixed request: its
  configuration, its current stats record, and the results its three
  methods would produce (`sendSMS`, `getDeliveryStatus`, `checkBalance`),
  plus the latency its `sendSMS` would record into its stats.
* The factory's `Map<string, BaseSMSProvider>` is modelled as its
  insertion-ordered entry list `List (String × BaseSMSProvider)` with
  distinct keys; `Map.get` is `List.find?` on the key.
* `Array.prototype.sort` with comparator `keyA - keyB` is, per the
  ECMAScript stable-sort guarantee, the stable sort by that key; it is
  modelled by `List.insertionSort` with the total preorder induced by the
  key, which is stable and sorted, hence produces the same list.
* Router results are paired with the list of adapters whose `sendSMS` was
  invoked, in invocation order, so that call-count properties are statable.
-/

namespace Cendika

/-- JS `x || d` for an optional string `x`: `undefined` and `""` are falsy. -/
def jsOr (x : Option String) (d : String) : String :=
  match x with
  | none => d
  | some s => if s = "" then d else s

/-- The closed status enumeration of `ProviderResponse.status`
(base-sms.provider.ts, line 28). -/
inductive SendStatus where
  | submitted
  | sent
  | delivered
  | failed
  | rejected
  | invalid_parameters
  | authentication_error
  | insufficient_credit
  | provider_error
deriving DecidableEq

/-- `ProviderResponse` (base-sms.provider.ts, lines 26-36); the `metadata`
bag is not observed by the router and is omitted. -/
structure ProviderResponse where
  success : Bool
  status : SendStatus
  externalId : Option String := none
  message : Option String := none
  errorCode : Option String := none
  providerId : String
  cost : Option ℚ := none
  currency : Option String := none
deriving DecidableEq

/-- A thrown JavaScript value, as observed by the catching code: its
optional `message` and `errorCode` properties. -/
structure JsError where
  message : Option String := none
  errorCode : Option String := none
deriving DecidableEq

/-- `ProviderStats` (base-sms.provider.ts, lines 55-62); the `lastUsed`
wall-clock timestamp is not observed by any claim and is omitted. -/
structure ProviderStats where
  totalSent : Nat
  totalDelivered : Nat
  totalFailed : Nat
  successRate : ℚ
  avgLatency : ℚ
deriving DecidableEq

/-- The stats record installed by the `BaseSMSProvider` constructor
(base-sms.provider.ts, lines 74-80). -/
def initialStats : ProviderStats :=
  { totalSent := 0, totalDelivered := 0, totalFailed := 0
    successRate := 0, avgLatency := 0 }

/-- `BaseSMSProvider.updateStats` (base-sms.provider.ts, lines 132-156).
The latency guard is the JS truthiness test `if (latency)`: an absent or
zero latency leaves the running average unchanged. -/
def updateStats (s : ProviderStats) (success : Bool) (latency : Option ℚ) : ProviderStats :=
  let totalSent : Nat := s.totalSent + 1
  let totalDelivered : Nat := if success then s.totalDelivered + 1 else s.totalDelivered
  let totalFailed : Nat := if success then s.totalFailed else s.totalFailed + 1
  let successRate : ℚ := ((totalDelivered : ℚ) / (totalSent : ℚ)) * 100
  let avgLatency : ℚ :=
    match latency with
    | none => s.avgLatency
    | some l =>
      if l = 0 then s.avgLatency
      else (s.avgLatency * ((totalSent : ℚ) - 1) + l) / (totalSent : ℚ)
  { totalSent := totalSent, totalDelivered := totalDelivered
    totalFailed := totalFailed, successRate := successRate, avgLatency := avgLatency }

/-- `DeliveryStatus.status` values (base-sms.provider.ts, line 40). -/
inductive DSStatus where
  | sent
  | delivered
  | failed
  | pending
  | unknown
deriving DecidableEq

/-- `DeliveryStatus` (base-sms.provider.ts, lines 39-45); the timestamp and
metadata are not observed by the router's decisions and are omitted. -/
structure DeliveryStatus where
  status : DSStatus
  externalId : String
  error : Option String := none
deriving DecidableEq

/-- `ProviderBalance` (base-sms.provider.ts, lines 48-52). -/
structure ProviderBalance where
  balance : ℚ
  currency : String
  error : Option String := none
deriving DecidableEq

/-- Result of one adapter `sendSMS` call: either a returned
`ProviderResponse` or a thrown value. -/
inductive AttemptResult where
  | ok (r : ProviderResponse)
  | thrown (e : JsError)
deriving DecidableEq

/-- Result of one adapter `getDeliveryStatus` call. -/
inductive DeliveryResult where
  | ok (st : DeliveryStatus)
  | thrown (e : JsError)
deriving DecidableEq

/-- Result of one adapter `checkBalance` call. -/
inductive BalanceResult where
  | ok (b : ProviderBalance)
  | thrown (e : JsError)
deriving DecidableEq

/-- The configuration fields of `SMSProviderConfig`
(base-sms.provider.ts, lines 4-14) observed by the factory and router. -/
structure SMSProviderConfig where
  name : String
  supportedCountries : List String
  supportedNetworks : Option (List String) := none
  priority : Option Nat := none
deriving DecidableEq

/-- One registered adapter, as the factory and router observe it for one
fixed request: its configuration, its current stats, and the outcome each
of its three methods would produce (plus the latency its `sendSMS` would
record via `updateStats`). -/
structure BaseSMSProvider where
  config : SMSProviderConfig
  stats : ProviderStats := initialStats
  sendSMS : AttemptResult := AttemptResult.thrown {}
  sendLatency : Option ℚ := none
  getDeliveryStatus : DeliveryResult := DeliveryResult.thrown {}
  checkBalance : BalanceResult := BalanceResult.thrown {}
deriving DecidableEq

/-- `BaseSMSProvider.getProviderName` (base-sms.provider.ts, line 103). -/
def BaseSMSProvider.getProviderName (a : BaseSMSProvider) : String :=
  a.config.name

/-- `BaseSMSProvider.supportsCountry` (base-sms.provider.ts, lines 110-112):
membership of the country code in `config.supportedCountries`. -/
def BaseSMSProvider.supportsCountry (a : BaseSMSProvider) (countryCode : String) : Bool :=
  a.config.supportedCountries.contains countryCode

/-- `BaseSMSProvider.supportsNetwork` (base-sms.provider.ts, lines 117-120):
an absent network list means every network is supported. -/
def BaseSMSProvider.supportsNetwork (a : BaseSMSProvider) (network : String) : Bool :=
  match a.config.supportedNetworks with
  | none => true
  | some ns => ns.contains network

/-- The stats effect of invoking an adapter's `sendSMS`: every concrete
provider calls `this.updateStats(success, latency)` exactly once per call
(e.g. twilio provider, lines 277 and 289). -/
def sendEffect (a : BaseSMSProvider) : ProviderStats :=
  updateStats a.stats
    (match a.sendSMS with
     | AttemptResult.ok r => r.success
     | AttemptResult.thrown _ => false)
    a.sendLatency

/-- `BaseSMSProvider.healthCheck` (base-sms.provider.ts, lines 244-270):
a thrown `checkBalance` or a truthy `error` field reports unhealthy;
otherwise healthy with the balance, whatever its value. -/
structure HealthResult where
  healthy : Bool
  message : String
  balance : Option ℚ := none
deriving DecidableEq

def healthCheck (a : BaseSMSProvider) : HealthResult :=
  match a.checkBalance with
  | BalanceResult.thrown e =>
    { healthy := false, message := jsOr e.message "Health check failed" }
  | BalanceResult.ok b =>
    match b.error with
    | some err =>
      if err = "" then
        { healthy := true, message := "Provider is healthy", balance := some b.balance }
      else
        { healthy := false, message := err }
    | none =>
      { healthy := true, message := "Provider is healthy", balance := some b.balance }

/-! ### SMSProviderFactory (provider.factory.ts) -/

/-- The factory's `Map<string, BaseSMSProvider>` as its insertion-ordered
entry list (keys distinct, set once at initialization). -/
abbrev Registry : Type := List (String × BaseSMSProvider)

/-- `SMSProviderFactory.getAllProviders` (provider.factory.ts, lines
154-156): `Array.from(this.providers.values())`, in insertion order. -/
def getAllProviders (registry : Registry) : List BaseSMSProvider :=
  registry.map Prod.snd

/-- JS `String.prototype.toLowerCase()` on the ASCII provider names the
factory uses: per-character lowercasing. -/
def jsToLower (s : String) : String :=
  String.mk (s.data.map Char.toLower)

/-- `SMSProviderFactory.getProvider` (provider.factory.ts, lines 147-149):
`this.providers.get(name.toLowerCase())`. -/
def getProvider (registry : Registry) (name : String) : Option BaseSMSProvider :=
  (registry.find? (fun kv => kv.1 == jsToLower name)).map Prod.snd

/-- The effective sort key of the comparator in `getProvidersForCountry`
(provider.factory.ts, lines 168-169): `a.getConfig().priority || 999` —
JS `||`, so an absent priority *and* a priority of `0` both become 999. -/
def priorityKey (a : BaseSMSProvider) : Nat :=
  match a.config.priority with
  | none => 999
  | some p => if p = 0 then 999 else p

/-- The total preorder the priority comparator sorts by. -/
def priorityLE (a b : BaseSMSProvider) : Prop :=
  priorityKey a ≤ priorityKey b

instance : DecidableRel priorityLE := fun a b => Nat.decLe (priorityKey a) (priorityKey b)

instance : IsTotal BaseSMSProvider priorityLE :=
  ⟨fun a b => Nat.le_total (priorityKey a) (priorityKey b)⟩

instance : IsTrans BaseSMSProvider priorityLE :=
  ⟨fun _ _ _ hab hbc => Nat.le_trans hab hbc⟩

/-- The filter predicate of `getProvidersForCountry` (provider.factory.ts,
lines 163-166): the adapter supports the country or lists the wildcard. -/
def countryEligible (a : BaseSMSProvider) (countryCode : String) : Bool :=
  a.supportsCountry countryCode || a.config.supportedCountries.contains "*"

/-- `SMSProviderFactory.getProvidersForCountry` (provider.factory.ts, lines
161-172): filter by eligibility, then the ECMAScript stable sort by the
effective priority key, modelled by the stable `List.insertionSort`. -/
def getProvidersForCountry (registry : Registry) (countryCode : String) :
    List BaseSMSProvider :=
  List.insertionSort priorityLE
    ((getAllProviders registry).filter (fun a => countryEligible a countryCode))

/-- `SMSProviderFactory.getProvidersForNetwork` (provider.factory.ts, lines
177-183). -/
def getProvidersForNetwork (registry : Registry) (countryCode network : String) :
    List BaseSMSProvider :=
  (getProvidersForCountry registry countryCode).filter
    (fun a => a.supportsNetwork network)

/-- `SMSProviderFactory.healthCheckAll` (provider.factory.ts, lines
188-202): one `healthCheck` result per registered entry, keyed by the
registration name. -/
def healthCheckAll (registry : Registry) : List (String × HealthResult) :=
  registry.map (fun kv => (kv.1, healthCheck kv.2))

/-! ### SMSProviderRouter.sendSMS (provider.router.ts, lines 13-110) -/

/-- The value of the router's `lastError` variable: either a failure
`ProviderResponse` remembered at line 71 or a caught thrown value
remembered at line 79. -/
inductive LastError where
  | resp (r : ProviderResponse)
  | exn (e : JsError)
deriving DecidableEq

/-- The `lastError?.message` property access (provider.router.ts, line 94). -/
def LastError.jsMessage : LastError → Option String
  | LastError.resp r => r.message
  | LastError.exn e => e.message

/-- The `lastError?.errorCode` property access (provider.router.ts, line 95). -/
def LastError.jsErrorCode : LastError → Option String
  | LastError.resp r => r.errorCode
  | LastError.exn e => e.errorCode

/-- The `lastError` an attempt leaves behind. -/
def toLastError : AttemptResult → LastError
  | AttemptResult.ok r => LastError.resp r
  | AttemptResult.thrown e => LastError.exn e

/-- An attempt that does not end the loop: a returned outcome with
`success=false`, or a thrown value. -/
def attemptFails : AttemptResult → Bool
  | AttemptResult.ok r => !r.success
  | AttemptResult.thrown _ => true

/-- The `NO_PROVIDER` early return (provider.router.ts, lines 24-34). -/
def noProviderResponse (country : String) (network : Option String) : ProviderResponse :=
  { success := false, status := SendStatus.failed
    message := some ("No SMS providers available for " ++ country ++
      (match network with | some n => "/" ++ n | none => ""))
    errorCode := some "NO_PROVIDER", providerId := "none" }

/-- The all-providers-failed return (provider.router.ts, lines 91-97):
a fresh response taking only `message` and `errorCode` (JS `||` defaults)
from `lastError`. -/
def allFailedResponse (lastError : Option LastError) : ProviderResponse :=
  { success := false, status := SendStatus.failed
    message := some (jsOr (lastError.bind LastError.jsMessage) "All providers failed")
    errorCode := some (jsOr (lastError.bind LastError.jsErrorCode) "ALL_FAILED")
    providerId := "multiple" }

/-- The outer-catch return (provider.router.ts, lines 102-108). -/
def routingErrorResponse (e : JsError) : ProviderResponse :=
  { success := false, status := SendStatus.failed
    message := some (jsOr e.message "SMS routing failed")
    errorCode := some "ROUTING_ERROR", providerId := "router" }

/-- The candidate loop (provider.router.ts, lines 45-97): invoke each
candidate's `sendSMS` in order; return a successful outcome immediately;
remember a failure outcome or a caught thrown value as `lastError` and
continue; after exhaustion return `allFailedResponse`. The second
component lists the adapters whose `sendSMS` was invoked, in order. -/
def tryProviders : List BaseSMSProvider → Option LastError →
    ProviderResponse × List BaseSMSProvider
  | [], lastError => (allFailedResponse lastError, [])
  | a :: rest, _ =>
    match a.sendSMS with
    | AttemptResult.ok r =>
      if r.success then (r, [a])
      else
        let next := tryProviders rest (some (LastError.resp r))
        (next.1, a :: next.2)
    | AttemptResult.thrown e =>
      let next := tryProviders rest (some (LastError.exn e))
      (next.1, a :: next.2)

/-- The registry lookup at provider.router.ts, lines 20-22, which the outer
`try` may observe as a thrown value. -/
inductive RegistryLookup where
  | ok (providers : List BaseSMSProvider)
  | thrown (e : JsError)
deriving DecidableEq

/-- `SMSProviderRouter.sendSMS` (provider.router.ts, lines 13-110), given
the result of its registry lookup. The second component lists the adapters
whose `sendSMS` was invoked, in invocation order. -/
def routerSendSMS (lookup : RegistryLookup) (country : String)
    (network : Option String) : ProviderResponse × List BaseSMSProvider :=
  match lookup with
  | RegistryLookup.thrown e => (routingErrorResponse e, [])
  | RegistryLookup.ok providers =>
    if providers.isEmpty then (noProviderResponse country network, [])
    else tryProviders providers none

/-- The registry after a router call that invoked the listed adapters: each
invoked adapter's stats record has absorbed its `sendSMS` stats update
(the candidate array aliases the registry's adapter objects), every other
adapter is untouched. -/
def applyInvocations (registry : Registry) (invoked : List BaseSMSProvider) : Registry :=
  registry.map (fun kv => if kv.2 ∈ invoked then (kv.1, { kv.2 with stats := sendEffect kv.2 }) else kv)

/-! ### SMSProviderRouter.getBestProvider (provider.router.ts, lines 115-151) -/

/-- The effective sort key of the `speed` comparator (provider.router.ts,
lines 133-134): `a.getStats().avgLatency || 1000` — an `avgLatency` of `0`
(no latency ever recorded) becomes the default 1000. -/
def latencyKey (a : BaseSMSProvider) : ℚ :=
  if a.stats.avgLatency = 0 then 1000 else a.stats.avgLatency

/-- The total preorder the `speed` comparator sorts by (ascending). -/
def latencyLE (a b : BaseSMSProvider) : Prop :=
  latencyKey a ≤ latencyKey b

instance : DecidableRel latencyLE := fun a b =>
  inferInstanceAs (Decidable (latencyKey a ≤ latencyKey b))

instance : IsTotal BaseSMSProvider latencyLE :=
  ⟨fun a b => le_total (latencyKey a) (latencyKey b)⟩

instance : IsTrans BaseSMSProvider latencyLE :=
  ⟨fun _ _ _ hab hbc => le_trans hab hbc⟩

/-- The effective sort key of the `reliability` comparator
(provider.router.ts, lines 141-142): `successRate || 0` is the identity on
every non-`NaN` number. -/
def reliabilityKey (a : BaseSMSProvider) : ℚ :=
  a.stats.successRate

/-- The total preorder the `reliability` comparator sorts by (descending). -/
def reliabilityGE (a b : BaseSMSProvider) : Prop :=
  reliabilityKey b ≤ reliabilityKey a

instance : DecidableRel reliabilityGE := fun a b =>
  inferInstanceAs (Decidable (reliabilityKey b ≤ reliabilityKey a))

instance : IsTotal BaseSMSProvider reliabilityGE :=
  ⟨fun a b => le_total (reliabilityKey b) (reliabilityKey a)⟩

instance : IsTrans BaseSMSProvider reliabilityGE :=
  ⟨fun _ _ _ hab hbc => le_trans hbc hab⟩

/-- The selection criteria of `getBestProvider` (provider.router.ts,
line 118). -/
inductive Criteria where
  | cost
  | speed
  | reliability
deriving DecidableEq

/-- `SMSProviderRouter.getBestProvider` (provider.router.ts, lines
115-151), given the candidate list its registry lookup produced: `none`
for an empty list, else the head of the stable resort by the chosen
metric (`cost` and an absent criterion keep priority order). -/
def getBestProvider (candidates : List BaseSMSProvider) (criteria : Option Criteria) :
    Option BaseSMSProvider :=
  if candidates.isEmpty then none
  else
    match criteria with
    | some Criteria.speed => (List.insertionSort latencyLE candidates).head?
    | some Criteria.reliability => (List.insertionSort reliabilityGE candidates).head?
    | _ => candidates.head?

/-! ### SMSProviderRouter.checkDeliveryStatus (provider.router.ts, lines 156-197) -/

/-- The probe-all loop (provider.router.ts, lines 169-180): query every
registered adapter in registration order; skip a thrown call or an
`unknown` status; return the first other status. -/
def probeAll : List BaseSMSProvider → Option DeliveryStatus
  | [] => none
  | a :: rest =>
    match a.getDeliveryStatus with
    | DeliveryResult.thrown _ => probeAll rest
    | DeliveryResult.ok st =>
      if st.status = DSStatus.unknown then probeAll rest else some st

/-- An adapter the probe-all loop passes over: its `getDeliveryStatus`
throws or reports `unknown`. -/
def probeSkips (a : BaseSMSProvider) : Bool :=
  match a.getDeliveryStatus with
  | DeliveryResult.thrown _ => true
  | DeliveryResult.ok st => decide (st.status = DSStatus.unknown)

/-- `SMSProviderRouter.checkDeliveryStatus` (provider.router.ts, lines
156-197). `if (providerName)` is a JS truthiness test, so an empty-string
name behaves like an absent one; a named lookup that finds no adapter
falls through to the probe-all loop; a thrown call on a found named
adapter reaches the outer catch (lines 188-196). -/
def checkDeliveryStatus (registry : Registry) (externalId : String)
    (providerName : Option String) : DeliveryStatus :=
  let fallback : DeliveryStatus :=
    match probeAll (getAllProviders registry) with
    | some st => st
    | none =>
      { status := DSStatus.unknown, externalId := externalId
        error := some "Could not get status from any provider" }
  match providerName with
  | none => fallback
  | some name =>
    if name = "" then fallback
    else
      match getProvider registry name with
      | none => fallback
      | some a =>
        match a.getDeliveryStatus with
        | DeliveryResult.ok st => st
        | DeliveryResult.thrown e =>
          { status := DSStatus.unknown, externalId := externalId, error := e.message }

/-! ### StatsTracker sequences -/

/-- A sequence of `updateStats` calls applied in order to a stats record:
each element is the success flag and the optional latency of one recorded
attempt. -/
def applyUpdates (s : ProviderStats) : List (Bool × Option ℚ) → ProviderStats
  | [] => s
  | u :: us => applyUpdates (updateStats s u.1 u.2) us

/-! ### Helper lemmas about the failover loop -/

/-- If every candidate before `winner` fails and `winner` returns a
successful outcome, the loop returns that outcome and invokes exactly the
failing prefix followed by `winner`, whatever the accumulated `lastError`
and whatever follows `winner`. -/
theorem tryProviders_first_success (pre : List BaseSMSProvider) :
    ∀ (acc : Option LastError) (winner : BaseSMSProvider)
      (post : List BaseSMSProvider) (r : ProviderResponse),
      (∀ a ∈ pre, attemptFails a.sendSMS = true) →
      winner.sendSMS = AttemptResult.ok r → r.success = true →
      tryProviders (pre ++ winner :: post) acc = (r, pre ++ [winner]) := by
  induction pre with
  | nil =>
    intro acc winner post r _ hwin hr
    simp [tryProviders, hwin, hr]
  | cons a pre ih =>
    intro acc winner post r hfail hwin hr
    have ha : attemptFails a.sendSMS = true := hfail a (List.mem_cons_self a pre)
    have hrest : ∀ b ∈ pre, attemptFails b.sendSMS = true :=
      fun b hb => hfail b (List.mem_cons_of_mem a hb)
    cases hsa : a.sendSMS with
    | ok r' =>
      have hs : r'.success = false := by
        simpa [attemptFails, hsa] using ha
      simp [tryProviders, hsa, hs, ih _ winner post r hrest hwin hr]
    | thrown e =>
      simp [tryProviders, hsa, ih _ winner post r hrest hwin hr]

/-- If every candidate fails, the loop returns the all-failed response
built from the last candidate's attempt, and invokes every candidate. -/
theorem tryProviders_exhausted (init : List BaseSMSProvider) :
    ∀ (acc : Option LastError) (lastA : BaseSMSProvider),
      (∀ a ∈ init, attemptFails a.sendSMS = true) →
      attemptFails lastA.sendSMS = true →
      tryProviders (init ++ [lastA]) acc
        = (allFailedResponse (some (toLastError lastA.sendSMS)), init ++ [lastA]) := by
  induction init with
  | nil =>
    intro acc lastA _ hl
    cases hsa : lastA.sendSMS with
    | ok r =>
      have hs : r.success = false := by
        simpa [attemptFails, hsa] using hl
      simp [tryProviders, hsa, hs, toLastError]
    | thrown e =>
      simp [tryProviders, hsa, toLastError]
  | cons a init ih =>
    intro acc lastA hfail hl
    have ha : attemptFails a.sendSMS = true := hfail a (List.mem_cons_self a init)
    have hrest : ∀ b ∈ init, attemptFails b.sendSMS = true :=
      fun b hb => hfail b (List.mem_cons_of_mem a hb)
    cases hsa : a.sendSMS with
    | ok r' =>
      have hs : r'.success = false := by
        simpa [attemptFails, hsa] using ha
      simp [tryProviders, hsa, hs, ih _ lastA hrest hl]
    | thrown e =>
      simp [tryProviders, hsa, ih _ lastA hrest hl]

/-- A nonempty candidate list is not `isEmpty`. -/
theorem isEmpty_false_of_ne_nil {l : List BaseSMSProvider} (h : l ≠ []) :
    l.isEmpty = false := by
  cases l with
  | nil => exact absurd rfl h
  | cons a t => rfl

/-! ### Helper lemmas about the stable sorts -/

/-- A stable sort leaves the subsequence of elements satisfying any
predicate on which the order is constant (in particular: sharing one sort
key) unchanged — this is the tie-breaking-by-original-order property. -/
theorem filter_insertionSort_of_rel {α : Type} (r : α → α → Prop) [DecidableRel r]
    (l : List α) (p : α → Bool) (hp : ∀ x y, p x = true → p y = true → r x y) :
    (List.insertionSort r l).filter p = l.filter p := by
  have hpair : (l.filter p).Pairwise r := by
    refine List.pairwise_of_forall_mem_list ?_
    intro x hx y hy
    exact hp x y (List.of_mem_filter hx) (List.of_mem_filter hy)
  have h2 : List.Sublist (l.filter p) (List.insertionSort r l) :=
    List.sublist_insertionSort hpair (List.filter_sublist l)
  have h3 : List.Sublist (l.filter p) ((List.insertionSort r l).filter p) := by
    have h4 := h2.filter p
    simpa [List.filter_filter] using h4
  have h5 : List.Perm ((List.insertionSort r l).filter p) (l.filter p) :=
    (List.perm_insertionSort r l).filter p
  exact (h3.eq_of_length h5.length_eq.symm).symm

/-- The head of the stable resort by a key minimizes that key over the
candidate list. -/
theorem insertionSort_head_min {α : Type} (key : α → ℚ) (candidates : List α)
    (h : candidates ≠ []) :
    ∃ m, (List.insertionSort (fun a b => key a ≤ key b) candidates).head? = some m
      ∧ m ∈ candidates ∧ ∀ b ∈ candidates, key m ≤ key b := by
  haveI : IsTotal α (fun a b : α => key a ≤ key b) := ⟨fun a b => le_total (key a) (key b)⟩
  haveI : IsTrans α (fun a b : α => key a ≤ key b) := ⟨fun _ _ _ hab hbc => le_trans hab hbc⟩
  cases hs : List.insertionSort (fun a b => key a ≤ key b) candidates with
  | nil =>
    exfalso
    have := (List.perm_insertionSort (fun a b : α => key a ≤ key b) candidates).length_eq
    rw [hs] at this
    exact h (List.eq_nil_of_length_eq_zero this.symm)
  | cons m rest =>
    have hsorted := List.sorted_insertionSort (fun a b : α => key a ≤ key b) candidates
    rw [hs] at hsorted
    refine ⟨m, rfl, ?_, ?_⟩
    · have : m ∈ List.insertionSort (fun a b : α => key a ≤ key b) candidates := by
        rw [hs]; exact List.mem_cons_self m rest
      exact (List.mem_insertionSort (fun a b : α => key a ≤ key b)).mp this
    · intro b hb
      have hb2 : b ∈ List.insertionSort (fun a b : α => key a ≤ key b) candidates :=
        (List.mem_insertionSort (fun a b : α => key a ≤ key b)).mpr hb
      rw [hs] at hb2
      rcases List.mem_cons.mp hb2 with hbm | hbr
      · rw [hbm]
      · exact List.rel_of_sorted_cons hsorted b hbr

/-! ### Helper lemmas about stats sequences -/

theorem applyUpdates_totalSent (us : List (Bool × Option ℚ)) :
    ∀ s : ProviderStats, (applyUpdates s us).totalSent = s.totalSent + us.length := by
  induction us with
  | nil => intro s; simp [applyUpdates]
  | cons u us ih =>
    intro s
    simp only [applyUpdates, ih, updateStats, List.length_cons]
    omega

theorem applyUpdates_totalDelivered (us : List (Bool × Option ℚ)) :
    ∀ s : ProviderStats,
      (applyUpdates s us).totalDelivered = s.totalDelivered + us.countP (fun u => u.1) := by
  induction us with
  | nil => intro s; simp [applyUpdates]
  | cons u us ih =>
    intro s
    simp only [applyUpdates, ih, updateStats, List.countP_cons]
    cases hu : u.1 <;> simp [hu] <;> try omega

theorem applyUpdates_totalFailed (us : List (Bool × Option ℚ)) :
    ∀ s : ProviderStats,
      (applyUpdates s us).totalFailed = s.totalFailed + us.countP (fun u => !u.1) := by
  induction us with
  | nil => intro s; simp [applyUpdates]
  | cons u us ih =>
    intro s
    simp only [applyUpdates, ih, updateStats, List.countP_cons]
    cases hu : u.1 <;> simp [hu] <;> try omega

theorem applyUpdates_successRate (us : List (Bool × Option ℚ)) :
    ∀ s : ProviderStats, us ≠ [] →
      (applyUpdates s us).successRate
        = (((applyUpdates s us).totalDelivered : ℚ) / ((applyUpdates s us).totalSent : ℚ)) * 100 := by
  induction us with
  | nil => intro s h; exact absurd rfl h
  | cons u us ih =>
    intro s _
    rw [applyUpdates]
    rcases us with _ | ⟨v, vs⟩
    · simp [applyUpdates, updateStats]
    · exact ih (updateStats s u.1 u.2) (by simp)

theorem length_eq_countP_true_add_countP_false (us : List (Bool × Option ℚ)) :
    us.length = us.countP (fun u => u.1) + us.countP (fun u => !u.1) := by
  induction us with
  | nil => rfl
  | cons u us ih =>
    simp only [List.length_cons, List.countP_cons, ih]
    cases hu : u.1 <;> simp [hu] <;> try omega

/-! ### Helper lemmas about the delivery-status probe -/

theorem probeAll_skips_all (l : List BaseSMSProvider)
    (h : ∀ b ∈ l, probeSkips b = true) : probeAll l = none := by
  induction l with
  | nil => rfl
  | cons a rest ih =>
    have ha : probeSkips a = true := h a (List.mem_cons_self a rest)
    have hrest := ih (fun b hb => h b (List.mem_cons_of_mem a hb))
    cases hsa : a.getDeliveryStatus with
    | thrown e => simp [probeAll, hsa, hrest]
    | ok st =>
      have : st.status = DSStatus.unknown := by
        simpa [probeSkips, hsa] using ha
      simp [probeAll, hsa, this, hrest]

theorem probeAll_first_found (pre : List BaseSMSProvider)
    (hpre : ∀ b ∈ pre, probeSkips b = true) (a : BaseSMSProvider)
    (post : List BaseSMSProvider) (st : DeliveryStatus)
    (ha : a.getDeliveryStatus = DeliveryResult.ok st)
    (hst : st.status ≠ DSStatus.unknown) :
    probeAll (pre ++ a :: post) = some st := by
  induction pre with
  | nil => simp [probeAll, ha, hst]
  | cons b pre ih =>
    have hb : probeSkips b = true := hpre b (List.mem_cons_self b pre)
    have hrest := ih (fun c hc => hpre c (List.mem_cons_of_mem b hc))
    cases hsb : b.getDeliveryStatus with
    | thrown e => simp [probeAll, hsb, hrest]
    | ok st' =>
      have : st'.status = DSStatus.unknown := by
        simpa [probeSkips, hsb] using hb
      simp [probeAll, hsb, this, hrest]

/-! ### Concrete adapters used by witnesses and counterexamples -/

/-- A candidate whose `sendSMS` returns a failure outcome with a specific
error code and an external id, using the non-`failed` status `rejected`. -/
def rejectingAdapter : BaseSMSProvider :=
  { config := { name := "Reject", supportedCountries := ["GH"], priority := some 1 }
    sendSMS := AttemptResult.ok
      { success := false, status := SendStatus.rejected
        externalId := some "x1", message := some "upstream rejected"
        errorCode := some "E_REJECT", providerId := "reject" } }

/-- A candidate whose `sendSMS` returns a successful outcome. -/
def winningResponse : ProviderResponse :=
  { success := true, status := SendStatus.submitted
    externalId := some "abc123", providerId := "winner" }

def winningAdapter : BaseSMSProvider :=
  { config := { name := "Winner", supportedCountries := ["GH"], priority := some 2 }
    sendSMS := AttemptResult.ok winningResponse }

/-- A candidate after the winner; never invoked in the C1 witness. -/
def spareAdapter : BaseSMSProvider :=
  { config := { name := "Spare", supportedCountries := ["GH"], priority := some 3 }
    sendSMS := AttemptResult.ok
      { success := true, status := SendStatus.submitted, providerId := "spare" } }

/-- A candidate whose `sendSMS` throws (its thrown value carries no
`message` and no `errorCode`). -/
def throwingAdapter : BaseSMSProvider :=
  { config := { name := "Thrower", supportedCountries := ["GH"], priority := some 4 }
    sendSMS := AttemptResult.thrown {} }

/-- Adapters registered with priorities 3, 1, 2 for the same country, in
that registration order. -/
def prioThreeA : BaseSMSProvider :=
  { config := { name := "A", supportedCountries := ["GH"], priority := some 3 } }

def prioOneB : BaseSMSProvider :=
  { config := { name := "B", supportedCountries := ["GH"], priority := some 1 } }

def prioTwoC : BaseSMSProvider :=
  { config := { name := "C", supportedCountries := ["GH"], priority := some 2 } }

/-- An adapter registered with the numeric priority 0. -/
def prioZeroAdapter : BaseSMSProvider :=
  { config := { name := "Zero", supportedCountries := ["GH"], priority := some 0 } }

/-- An adapter registered with the numeric priority 5. -/
def prioFiveAdapter : BaseSMSProvider :=
  { config := { name := "Five", supportedCountries := ["GH"], priority := some 5 } }

/-- A cold-start adapter: no latency ever recorded (`avgLatency = 0`). -/
def coldAdapter : BaseSMSProvider :=
  { config := { name := "Cold", supportedCountries := ["GH"], priority := some 1 } }

/-- An adapter with a recorded average latency of 2000. -/
def slowAdapter : BaseSMSProvider :=
  { config := { name := "Slow", supportedCountries := ["GH"], priority := some 2 }
    stats := { totalSent := 1, totalDelivered := 1, totalFailed := 0
               successRate := 100, avgLatency := 2000 } }

/-- An adapter whose `checkBalance` reports a negative balance without an
error field. -/
def negativeBalanceAdapter : BaseSMSProvider :=
  { config := { name := "NegBal", supportedCountries := ["GH"] }
    checkBalance := BalanceResult.ok { balance := -1, currency := "USD" } }

/-- An adapter whose `checkBalance` succeeds with a nonnegative balance. -/
def healthyAdapter : BaseSMSProvider :=
  { config := { name := "Healthy", supportedCountries := ["GH"] }
    checkBalance := BalanceResult.ok { balance := 25, currency := "USD" } }

/-- An adapter whose `getDeliveryStatus` reports `delivered`. -/
def deliveredStatus : DeliveryStatus :=
  { status := DSStatus.delivered, externalId := "x" }

def deliveredAdapter : BaseSMSProvider :=
  { config := { name := "Deliv", supportedCountries := ["GH"] }
    getDeliveryStatus := DeliveryResult.ok deliveredStatus }

/-- A wildcard-only adapter (mirrors the Twilio registration,
provider.factory.ts line 105). -/
def wildcardAdapter : BaseSMSProvider :=
  { config := { name := "Twilio", supportedCountries := ["*"], priority := some 10 } }

/-! ### Claim theorems -/

/-- C1: for every non-empty candidate list, if the k-th candidate (in the
returned priority order) is the first whose `sendSMS` returns an outcome
with `success = true`, then `Router.sendSMS` invokes `sendSMS` on exactly
candidates 1..k and no others, and returns that k-th outcome unchanged.
(The position k is presented by splitting the list as `pre ++ winner ::
post` with every member of `pre` failing.) -/
theorem c1_first_success_stops (pre post : List BaseSMSProvider)
    (winner : BaseSMSProvider) (r : ProviderResponse)
    (country : String) (network : Option String)
    (hpre : ∀ a ∈ pre, attemptFails a.sendSMS = true)
    (hwin : winner.sendSMS = AttemptResult.ok r) (hr : r.success = true) :
    routerSendSMS (RegistryLookup.ok (pre ++ winner :: post)) country network
      = (r, pre ++ [winner]) := by
  have hne : (pre ++ winner :: post).isEmpty = false :=
    isEmpty_false_of_ne_nil (by cases pre <;> simp)
  have hloop := tryProviders_first_success pre none winner post r hpre hwin hr
  rw [routerSendSMS, hne, if_neg (by simp), hloop]

/-- Witness for C1: with a failing first candidate, a succeeding second
candidate and a spare third, the router returns the second candidate's
outcome and invokes exactly the first two. -/
theorem c1_first_success_stops_witness :
    routerSendSMS (RegistryLookup.ok [rejectingAdapter, winningAdapter, spareAdapter])
        "GH" none
      = (winningResponse, [rejectingAdapter, winningAdapter]) :=
  c1_first_success_stops [rejectingAdapter] [spareAdapter] winningAdapter
    winningResponse "GH" none (by decide) rfl rfl

/-- C3: a request whose registry lookup yields an empty candidate list
returns immediately with `success=false`, status `failed`, error code
`NO_PROVIDER`, invokes no adapter's `sendSMS`, and leaves every registered
adapter's stats record unchanged. -/
theorem c3_no_provider_short_circuit (country : String) (network : Option String)
    (candidates : List BaseSMSProvider) (registry : Registry)
    (h : candidates = []) :
    routerSendSMS (RegistryLookup.ok candidates) country network
        = (noProviderResponse country network, [])
    ∧ (noProviderResponse country network).success = false
    ∧ (noProviderResponse country network).status = SendStatus.failed
    ∧ (noProviderResponse country network).errorCode = some "NO_PROVIDER"
    ∧ applyInvocations registry
        (routerSendSMS (RegistryLookup.ok candidates) country network).2 = registry := by
  subst h
  refine ⟨rfl, rfl, rfl, rfl, ?_⟩
  show applyInvocations registry [] = registry
  unfold applyInvocations
  have : ∀ kv : String × BaseSMSProvider,
      (if kv.2 ∈ ([] : List BaseSMSProvider)
       then (kv.1, { kv.2 with stats := sendEffect kv.2 }) else kv) = kv := by
    intro kv
    simp
  simp only [this]
  simp

/-- Witness for C3 at a concrete empty candidate list and a one-adapter
registry. -/
theorem c3_no_provider_short_circuit_witness :
    routerSendSMS (RegistryLookup.ok []) "ZZ" none = (noProviderResponse "ZZ" none, [])
    ∧ (noProviderResponse "ZZ" none).success = false
    ∧ (noProviderResponse "ZZ" none).status = SendStatus.failed
    ∧ (noProviderResponse "ZZ" none).errorCode = some "NO_PROVIDER"
    ∧ applyInvocations [("b", prioOneB)]
        (routerSendSMS (RegistryLookup.ok []) "ZZ" none).2 = [("b", prioOneB)] :=
  c3_no_provider_short_circuit "ZZ" none [] [("b", prioOneB)] rfl

/-- C7: the router always returns a structured outcome — for any registry
lookup result it produces a response (never a propagated exception); an
adapter whose `sendSMS` throws is converted into failover to the remaining
candidates; and a thrown registry lookup yields `success=false`, status
`failed`, error code `ROUTING_ERROR` and `providerId = "router"` with no
adapter invoked. -/
theorem c7_router_never_throws :
    (∀ (lookup : RegistryLookup) (country : String) (network : Option String),
      ∃ (resp : ProviderResponse) (invoked : List BaseSMSProvider),
        routerSendSMS lookup country network = (resp, invoked))
    ∧ (∀ (a : BaseSMSProvider) (rest : List BaseSMSProvider) (e : JsError)
        (country : String) (network : Option String),
        a.sendSMS = AttemptResult.thrown e →
        (routerSendSMS (RegistryLookup.ok (a :: rest)) country network).1
          = (tryProviders rest (some (LastError.exn e))).1)
    ∧ (∀ (e : JsError) (country : String) (network : Option String),
        routerSendSMS (RegistryLookup.thrown e) country network
            = (routingErrorResponse e, [])
        ∧ (routingErrorResponse e).success = false
        ∧ (routingErrorResponse e).status = SendStatus.failed
        ∧ (routingErrorResponse e).errorCode = some "ROUTING_ERROR"
        ∧ (routingErrorResponse e).providerId = "router") := by
  refine ⟨?_, ?_, ?_⟩
  · intro lookup country network
    exact ⟨(routerSendSMS lookup country network).1,
      (routerSendSMS lookup country network).2, rfl⟩
  · intro a rest e country network ha
    have hne : (a :: rest).isEmpty = false := rfl
    rw [routerSendSMS, hne, if_neg (by simp)]
    simp [tryProviders, ha]
  · intro e country network
    exact ⟨rfl, rfl, rfl, rfl, rfl⟩

/-- Witness for C7: a throwing first candidate fails over to a succeeding
second candidate. -/
theorem c7_router_never_throws_witness :
    (routerSendSMS (RegistryLookup.ok [throwingAdapter, winningAdapter]) "GH" none).1
      = (tryProviders [winningAdapter] (some (LastError.exn {}))).1 :=
  c7_router_never_throws.2.1 throwingAdapter [winningAdapter] {} "GH" none rfl

/-- C10: an adapter whose supported-country set is exactly the wildcard
`["*"]` does not itself support any concrete country code (its
`supportsCountry` returns `false`), yet `getProvidersForCountry` still
includes it: wildcard eligibility lives solely in the registry's filter. -/
theorem c10_wildcard_only_in_filter (p : BaseSMSProvider) (c : String)
    (registry : Registry)
    (h1 : p.config.supportedCountries = ["*"]) (h2 : c ≠ "*")
    (h3 : p ∈ getAllProviders registry) :
    p.supportsCountry c = false ∧ p ∈ getProvidersForCountry registry c := by
  constructor
  · rw [BaseSMSProvider.supportsCountry, h1]
    simp only [List.contains_cons, List.contains_nil, Bool.or_false]
    exact beq_eq_false_iff_ne.mpr h2
  · rw [getProvidersForCountry]
    rw [List.mem_insertionSort priorityLE]
    rw [List.mem_filter]
    refine ⟨h3, ?_⟩
    rw [countryEligible, h1]
    simp [List.contains_cons]

/-- Witness for C10: the wildcard-only Twilio-style adapter, country `GH`. -/
theorem c10_wildcard_only_in_filter_witness :
    wildcardAdapter.supportsCountry "GH" = false
    ∧ wildcardAdapter ∈ getProvidersForCountry [("twilio", wildcardAdapter)] "GH" :=
  c10_wildcard_only_in_filter wildcardAdapter "GH" [("twilio", wildcardAdapter)]
    rfl (by decide) (by decide)

/-- Counterexample to C2 as stated: with a single candidate whose failure
outcome has status `rejected` and an external id, the router's result is
*not* that outcome with only `providerId` (and possibly `errorCode`)
overridden — the code also forces status to `failed` and drops the
external id. -/
theorem c2_exhaustion_counterexample :
    (routerSendSMS (RegistryLookup.ok [rejectingAdapter]) "GH" none).1
      ≠ { success := false, status := SendStatus.rejected
          externalId := some "x1", message := some "upstream rejected"
          errorCode := some "E_REJECT", providerId := "multiple" } := by
  decide

/-- C2 amended: when every candidate's attempt fails (returns
`success=false` or throws), the router invokes every candidate and returns
a fresh failure outcome with `success=false` and status `failed`, whose
`message` and `errorCode` are taken from the last attempt when it carried
truthy ones (else the defaults `"All providers failed"` and `"ALL_FAILED"`),
and whose `providerId` is the sentinel `"multiple"`; the other fields of
the last outcome (status, external id, cost) are not carried over. -/
theorem c2_exhaustion_amended (init : List BaseSMSProvider)
    (lastA : BaseSMSProvider) (country : String) (network : Option String)
    (hfail : ∀ a ∈ init ++ [lastA], attemptFails a.sendSMS = true) :
    routerSendSMS (RegistryLookup.ok (init ++ [lastA])) country network
      = ({ success := false, status := SendStatus.failed
           message := some (jsOr (toLastError lastA.sendSMS).jsMessage "All providers failed")
           errorCode := some (jsOr (toLastError lastA.sendSMS).jsErrorCode "ALL_FAILED")
           providerId := "multiple" }, init ++ [lastA]) := by
  have hne : (init ++ [lastA]).isEmpty = false :=
    isEmpty_false_of_ne_nil (by cases init <;> simp)
  have hinit : ∀ a ∈ init, attemptFails a.sendSMS = true :=
    fun a ha => hfail a (List.mem_append_left [lastA] ha)
  have hlast : attemptFails lastA.sendSMS = true :=
    hfail lastA (List.mem_append_right init (List.mem_singleton_self lastA))
  have hloop := tryProviders_exhausted init none lastA hinit hlast
  rw [routerSendSMS, hne, if_neg (by simp), hloop]
  rfl

/-- Witness for C2 (amended): a failing candidate with a specific error
code followed by a throwing candidate; the throwing last attempt carries
no message and no code, so the defaults apply. -/
theorem c2_exhaustion_amended_witness :
    routerSendSMS (RegistryLookup.ok [rejectingAdapter, throwingAdapter]) "GH" none
      = ({ success := false, status := SendStatus.failed
           message := some "All providers failed"
           errorCode := some "ALL_FAILED"
           providerId := "multiple" }, [rejectingAdapter, throwingAdapter]) := by
  have h := c2_exhaustion_amended [rejectingAdapter] throwingAdapter "GH" none (by decide)
  simpa [throwingAdapter, toLastError, LastError.jsMessage, LastError.jsErrorCode, jsOr]
    using h

/-- Counterexample to C4 as stated: two same-country adapters registered
with the numeric priorities 0 and 5 are returned in the order [5, 0] —
JS `priority || 999` treats the numeric priority 0 as absent, demoting it
to 999, so the result is not sorted ascending by numeric priority. -/
theorem c4_priority_order_counterexample :
    (getProvidersForCountry [("zero", prioZeroAdapter), ("five", prioFiveAdapter)] "GH").map
        (fun a => a.config.priority) = [some 5, some 0]
    ∧ ¬ List.Sorted (fun a b => a ≤ b)
        ((getProvidersForCountry [("zero", prioZeroAdapter), ("five", prioFiveAdapter)] "GH").map
          (fun a => (a.config.priority).getD 999)) := by
  constructor
  · rfl
  · decide

/-- C4 amended: `getProvidersForCountry` returns exactly the adapters
whose supported-country set includes the country code or the wildcard
`"*"` (a permutation of that filter of the registration order), sorted
ascending by the *effective* priority — `priority || 999`, which maps an
absent priority and the numeric priority 0 to 999 — with ties broken by
registration order (the subsequence sharing any one effective priority is
preserved); in particular, same-country adapters registered with
priorities [3, 1, 2] come back in the order [1, 2, 3]. -/
theorem c4_priority_order_amended (registry : Registry) (c : String) :
    List.Perm (getProvidersForCountry registry c)
        ((getAllProviders registry).filter (fun a => countryEligible a c))
    ∧ List.Sorted priorityLE (getProvidersForCountry registry c)
    ∧ (∀ k : Nat, (getProvidersForCountry registry c).filter (fun x => priorityKey x == k)
        = ((getAllProviders registry).filter (fun a => countryEligible a c)).filter
            (fun x => priorityKey x == k))
    ∧ getProvidersForCountry [("a", prioThreeA), ("b", prioOneB), ("c", prioTwoC)] "GH"
        = [prioOneB, prioTwoC, prioThreeA] := by
  refine ⟨?_, ?_, ?_, ?_⟩
  · exact List.perm_insertionSort priorityLE _
  · exact List.sorted_insertionSort priorityLE _
  · intro k
    refine filter_insertionSort_of_rel priorityLE _ _ ?_
    intro x y hx hy
    have hxk : priorityKey x = k := by simpa using hx
    have hyk : priorityKey y = k := by simpa using hy
    rw [priorityLE, hxk, hyk]
  · rfl

/-- Counterexample to C5 as stated: after one successful attempt with
latency 10 (running average 10), a second successful attempt *with the
supplied latency 0* leaves the average at 10, while the claimed formula
`newAvg = (oldAvg*(n-1) + latency) / n` with post-increment count n = 2
demands 5 — the JS truthiness guard `if (latency)` skips a zero latency. -/
theorem c5_stats_counterexample :
    (updateStats (updateStats initialStats true (some 10)) true (some 0)).avgLatency
      ≠ ((updateStats initialStats true (some 10)).avgLatency *
            ((((updateStats initialStats true (some 10)).totalSent + 1 : Nat) : ℚ) - 1) + 0) /
          (((updateStats initialStats true (some 10)).totalSent + 1 : Nat) : ℚ) := by
  norm_num [updateStats, initialStats]

/-- C5 amended: starting from the initial stats record, after any
sequence of recorded attempts with M successes and F failures,
`totalSent = M+F`, `totalDelivered = M`, `totalFailed = F`, and (once at
least one attempt is recorded) `successRate = M/(M+F)*100` exactly; and
every attempt supplying a *nonzero* latency updates the running average by
`newAvg = (oldAvg*(n-1) + latency) / n` with n the post-increment attempt
count (a supplied latency of 0 is skipped by the JS truthiness guard and
leaves the average unchanged). -/
theorem c5_stats_amended :
    (∀ us : List (Bool × Option ℚ),
      (applyUpdates initialStats us).totalSent
          = us.countP (fun u => u.1) + us.countP (fun u => !u.1)
      ∧ (applyUpdates initialStats us).totalDelivered = us.countP (fun u => u.1)
      ∧ (applyUpdates initialStats us).totalFailed = us.countP (fun u => !u.1)
      ∧ (us ≠ [] →
          (applyUpdates initialStats us).successRate
            = ((us.countP (fun u => u.1) : ℚ) /
                ((us.countP (fun u => u.1) + us.countP (fun u => !u.1) : Nat) : ℚ)) * 100))
    ∧ (∀ (s : ProviderStats) (success : Bool) (l : ℚ), l ≠ 0 →
        (updateStats s success (some l)).avgLatency
          = (s.avgLatency * (((s.totalSent + 1 : Nat) : ℚ) - 1) + l) /
              ((s.totalSent + 1 : Nat) : ℚ)) := by
  constructor
  · intro us
    have hsent := applyUpdates_totalSent us initialStats
    have hdel := applyUpdates_totalDelivered us initialStats
    have hfailed := applyUpdates_totalFailed us initialStats
    have hlen := length_eq_countP_true_add_countP_false us
    refine ⟨?_, ?_, ?_, ?_⟩
    · rw [hsent, ← hlen]
      simp [initialStats]
    · simpa [initialStats] using hdel
    · simpa [initialStats] using hfailed
    · intro hne
      have hrate := applyUpdates_successRate us initialStats hne
      rw [hrate, hdel, hsent, hlen]
      norm_num [initialStats]
  · intro s success l hl
    simp [updateStats, hl]

/-- Witness for C5 (amended): one success with latency 10 then one
failure; the rate is 50% and the first update set the average to 10. -/
theorem c5_stats_amended_witness :
    ((applyUpdates initialStats [(true, some 10), (false, none)]).totalSent = 2
      ∧ (applyUpdates initialStats [(true, some 10), (false, none)]).successRate
          = ((1 : ℚ) / ((2 : Nat) : ℚ)) * 100)
    ∧ (updateStats initialStats true (some 10)).avgLatency
        = (initialStats.avgLatency * ((((initialStats.totalSent + 1 : Nat)) : ℚ) - 1) + 10) /
            (((initialStats.totalSent + 1 : Nat)) : ℚ) := by
  have h1 := c5_stats_amended.1 [(true, some 10), (false, none)]
  have h2 := c5_stats_amended.2 initialStats true 10 (by norm_num)
  refine ⟨⟨?_, ?_⟩, h2⟩
  · rw [h1.1]
    rfl
  · have := h1.2.2.2 (by simp)
    rw [this]
    norm_num

/-- Counterexample to C6 as stated: between a cold-start candidate (no
recorded latency, `avgLatency = 0`) and a candidate with recorded average
latency 2000, the `speed` criterion returns the cold-start one — the
default key is 1000, so a candidate with no recorded latency sorts
*before* a recorded candidate slower than 1000, not after every recorded
candidate. -/
theorem c6_speed_counterexample :
    getBestProvider [coldAdapter, slowAdapter] (some Criteria.speed) = some coldAdapter
    ∧ getBestProvider [coldAdapter, slowAdapter] (some Criteria.speed) ≠ some slowAdapter
    ∧ coldAdapter.stats.avgLatency = 0
    ∧ slowAdapter.stats.avgLatency = 2000 := by
  refine ⟨rfl, ?_, rfl, rfl⟩
  intro h
  have h2 : coldAdapter = slowAdapter := by
    have h1 : some coldAdapter = some slowAdapter := by
      rw [← h]
      rfl
    exact Option.some_injective _ h1
  have h3 := congrArg (fun a => a.stats.avgLatency) h2
  norm_num [coldAdapter, slowAdapter, initialStats] at h3

/-- C6 amended: for a non-empty candidate list, the `speed` criterion
returns a member of the list minimizing the *effective* latency key
`avgLatency || 1000`: a candidate with no recorded latency counts as 1000,
so it sorts after recorded candidates faster than 1000 but before ones
slower than 1000 (ties resolved toward the earlier candidate by the
stable sort). -/
theorem c6_speed_amended (candidates : List BaseSMSProvider)
    (h : candidates ≠ []) :
    ∃ m, getBestProvider candidates (some Criteria.speed) = some m
      ∧ m ∈ candidates ∧ ∀ b ∈ candidates, latencyKey m ≤ latencyKey b := by
  obtain ⟨m, hm, hmem, hmin⟩ := insertionSort_head_min latencyKey candidates h
  refine ⟨m, ?_, hmem, hmin⟩
  rw [getBestProvider, if_neg (by simp [isEmpty_false_of_ne_nil h])]
  exact hm

/-- Witness for C6 (amended) at the cold/slow pair. -/
theorem c6_speed_amended_witness :
    ∃ m, getBestProvider [coldAdapter, slowAdapter] (some Criteria.speed) = some m
      ∧ m ∈ [coldAdapter, slowAdapter]
      ∧ ∀ b ∈ [coldAdapter, slowAdapter], latencyKey m ≤ latencyKey b :=
  c6_speed_amended [coldAdapter, slowAdapter] (by simp)

/-- Counterexample to C8 as stated: an adapter whose `checkBalance`
returns balance -1 with no error is reported healthy — `healthCheck` never
compares the balance against 0, so "healthy iff no error and balance ≥ 0"
fails. -/
theorem c8_health_counterexample :
    ¬ ((healthCheck negativeBalanceAdapter).healthy = true ↔
        ∃ b, negativeBalanceAdapter.checkBalance = BalanceResult.ok b
          ∧ b.error = none ∧ 0 ≤ b.balance) := by
  intro h
  obtain ⟨b, hb, hbe, hge⟩ := h.mp rfl
  simp only [negativeBalanceAdapter] at hb
  injection hb with hb2
  rw [← hb2] at hge
  norm_num at hge

/-- C8 amended: `healthCheckAll` reports one entry per registered adapter
(each adapter's `checkBalance` is consulted through `healthCheck`), and an
adapter is reported healthy iff its `checkBalance` returned without
throwing and without a truthy `error` field — the balance value itself,
even a negative one, is not checked. -/
theorem c8_health_amended :
    (∀ (registry : Registry) (kv : String × BaseSMSProvider), kv ∈ registry →
        (kv.1, healthCheck kv.2) ∈ healthCheckAll registry)
    ∧ (∀ a : BaseSMSProvider, (healthCheck a).healthy = true ↔
        ∃ b, a.checkBalance = BalanceResult.ok b
          ∧ (b.error = none ∨ b.error = some "")) := by
  constructor
  · intro registry kv hkv
    rw [healthCheckAll]
    exact List.mem_map.mpr ⟨kv, hkv, rfl⟩
  · intro a
    cases hb : a.checkBalance with
    | thrown e => simp [healthCheck, hb]
    | ok b =>
      cases hbe : b.error with
      | none => simp [healthCheck, hb, hbe]
      | some err =>
        by_cases he : err = ""
        · subst he
          simp [healthCheck, hb, hbe]
        · simp [healthCheck, hb, hbe, he]

/-- Witness for C8 (amended) at a one-adapter registry whose balance check
succeeds. -/
theorem c8_health_amended_witness :
    ("healthy", healthCheck healthyAdapter) ∈ healthCheckAll [("healthy", healthyAdapter)]
    ∧ ((healthCheck healthyAdapter).healthy = true ↔
        ∃ b, healthyAdapter.checkBalance = BalanceResult.ok b
          ∧ (b.error = none ∨ b.error = some "")) :=
  ⟨c8_health_amended.1 [("healthy", healthyAdapter)] ("healthy", healthyAdapter)
      (by decide),
   c8_health_amended.2 healthyAdapter⟩

/-- Counterexample to C9 as stated: with one registered adapter reporting
`delivered` and a `providerName` that resolves to no registered adapter,
`checkDeliveryStatus` does not return `unknown` with an error — the named
lookup falls through to probing the registered adapters and returns
`delivered`. -/
theorem c9_delivery_counterexample :
    (checkDeliveryStatus [("deliv", deliveredAdapter)] "x" (some "zzz")).status
        = DSStatus.delivered
    ∧ DSStatus.delivered ≠ DSStatus.unknown :=
  ⟨rfl, by decide⟩

/-- C9 amended: with a non-empty `providerName` resolving to a registered
adapter, only that adapter is queried (its status is returned as-is; a
thrown call is reported as `unknown` with the thrown message); a
`providerName` resolving to no registered adapter *falls back to the
unnamed path*; and with no `providerName`, every registered adapter is
probed in registration order, the first status that is not `unknown` is
returned, and if none is found the result is `unknown` with an
explanatory error. -/
theorem c9_delivery_amended :
    (∀ (registry : Registry) (id n : String) (a : BaseSMSProvider) (st : DeliveryStatus),
        n ≠ "" → getProvider registry n = some a →
        a.getDeliveryStatus = DeliveryResult.ok st →
        checkDeliveryStatus registry id (some n) = st)
    ∧ (∀ (registry : Registry) (id n : String) (a : BaseSMSProvider) (e : JsError),
        n ≠ "" → getProvider registry n = some a →
        a.getDeliveryStatus = DeliveryResult.thrown e →
        checkDeliveryStatus registry id (some n)
          = { status := DSStatus.unknown, externalId := id, error := e.message })
    ∧ (∀ (registry : Registry) (id n : String),
        getProvider registry n = none →
        checkDeliveryStatus registry id (some n) = checkDeliveryStatus registry id none)
    ∧ (∀ (pre post : Registry) (kv : String × BaseSMSProvider) (id : String)
        (st : DeliveryStatus),
        (∀ b ∈ getAllProviders pre, probeSkips b = true) →
        kv.2.getDeliveryStatus = DeliveryResult.ok st → st.status ≠ DSStatus.unknown →
        checkDeliveryStatus (pre ++ kv :: post) id none = st)
    ∧ (∀ (registry : Registry) (id : String),
        (∀ b ∈ getAllProviders registry, probeSkips b = true) →
        checkDeliveryStatus registry id none
          = { status := DSStatus.unknown, externalId := id
              error := some "Could not get status from any provider" }) := by
  refine ⟨?_, ?_, ?_, ?_, ?_⟩
  · intro registry id n a st hn hp ha
    simp [checkDeliveryStatus, hp, ha, hn]
  · intro registry id n a e hn hp ha
    simp [checkDeliveryStatus, hp, ha, hn]
  · intro registry id n hp
    by_cases hn : n = "" <;> simp [checkDeliveryStatus, hp, hn]
  · intro pre post kv id st hpre hst hne
    have hprobe := probeAll_first_found (getAllProviders pre) hpre kv.2
      (getAllProviders post) st hst hne
    have hsplit : getAllProviders (pre ++ kv :: post)
        = getAllProviders pre ++ kv.2 :: getAllProviders post := by
      simp [getAllProviders]
    simp [checkDeliveryStatus, hsplit, hprobe]
  · intro registry id hall
    have hprobe := probeAll_skips_all (getAllProviders registry) hall
    simp [checkDeliveryStatus, hprobe]

/-- Witness for C9 (amended): a found named adapter is queried directly
(note the name is lowercased for the registry lookup). -/
theorem c9_delivery_amended_witness :
    checkDeliveryStatus [("deliv", deliveredAdapter)] "x" (some "Deliv")
      = deliveredStatus :=
  c9_delivery_amended.1 [("deliv", deliveredAdapter)] "x" "Deliv" deliveredAdapter
    deliveredStatus (by decide) (by decide) rfl

end Cendika
